import Mathlib

/-! Lets-schedule: the meeting model (`src/models/meeting.go`).

A shallow embedding of the meeting record, of its validation predicates and of
the role/status-filtered retrieval functions, followed by the properties the
specification states about them.

Conventions of the embedding:

* a Go pointer `*Meeting` is an `Option Meeting` (`nil` is `none`);
* a Go result `(bool, error)` is a pair `Bool × Option GoError`
  (`nil` error is `none`);
* Go `int` is `Int` (no arithmetic is performed on it, only comparisons);
* `time.Time` is an integer timestamp (no function here inspects it).
-/

namespace LetsSchedule

/-! ## Data model -/

/-- A `time.Time` value, kept as an integer timestamp. -/
abbrev Time := Int

/-- Modelled from the spec: package `config` is not part of the source tree; the
three error constants the model file refers to are the first three
constructors.  `other` stands for any further value of Go's `error`
interface (for instance whatever error the ORM reports). -/
inductive GoError where
  | ErrMeetingNotFound
  | ErrMeetingHourIsNegative
  | ErrRecordNotFound
  | other (msg : String)
  deriving DecidableEq

/-- The Go struct `Meeting` (meeting.go, lines 9-26). -/
structure Meeting where
  Id : Int
  Title : String
  Description : String
  IsOnsite : Bool
  IsOnline : Bool
  Place : String
  Url : String
  AllParticipantsResponded : Bool
  IsConfirmed : Bool
  StartTime : Time
  EndTime : Time
  ActualStartTime : Time
  ActualEndTime : Time
  Hour : Int
  CreatedAt : Time
  UpdatedAt : Time
  deriving DecidableEq

/-- The Go zero value `Meeting{}`. -/
def Meeting.zero : Meeting :=
  { Id := 0, Title := "", Description := "", IsOnsite := false, IsOnline := false,
    Place := "", Url := "", AllParticipantsResponded := false, IsConfirmed := false,
    StartTime := 0, EndTime := 0, ActualStartTime := 0, ActualEndTime := 0,
    Hour := 0, CreatedAt := 0, UpdatedAt := 0 }

/-! ## Validators (meeting.go, lines 28-85) -/

/-- `IsTitleEmpty` (lines 28-34). -/
def IsTitleEmpty (m : Option Meeting) : Bool × Option GoError :=
  match m with
  | none => (false, some GoError.ErrMeetingNotFound)
  | some m_ => (m_.Title == "", none)

/-- `IsHourEmpty` (lines 36-45). -/
def IsHourEmpty (m : Option Meeting) : Bool × Option GoError :=
  match m with
  | none => (false, some GoError.ErrMeetingNotFound)
  | some m_ =>
    if m_.Hour < 0 then
      (false, some GoError.ErrMeetingHourIsNegative)
    else
      (m_.Hour == 0, none)

/-- `IsOnsiteButNoPlaceSpecified` (lines 47-53). -/
def IsOnsiteButNoPlaceSpecified (m : Option Meeting) : Bool × Option GoError :=
  match m with
  | none => (false, some GoError.ErrMeetingNotFound)
  | some m_ => (m_.IsOnsite == true && m_.IsOnline == false && m_.Place == "", none)

/-- `IsOnlineButNoURLSpecified` (lines 55-61). -/
def IsOnlineButNoURLSpecified (m : Option Meeting) : Bool × Option GoError :=
  match m with
  | none => (false, some GoError.ErrMeetingNotFound)
  | some m_ => (m_.IsOnsite == false && m_.IsOnline == true && m_.Url == "", none)

/-- `IsHybridButNeitherPlaceOrURLSpecified` (lines 63-69). -/
def IsHybridButNeitherPlaceOrURLSpecified (m : Option Meeting) : Bool × Option GoError :=
  match m with
  | none => (false, some GoError.ErrMeetingNotFound)
  | some m_ =>
    (m_.IsOnsite == true && m_.IsOnline == true && m_.Place == "" && m_.Url == "", none)

/-- `IsHybridButNoPlaceSpecified` (lines 71-77). -/
def IsHybridButNoPlaceSpecified (m : Option Meeting) : Bool × Option GoError :=
  match m with
  | none => (false, some GoError.ErrMeetingNotFound)
  | some m_ => (m_.IsOnsite == true && m_.IsOnline == true && m_.Place == "", none)

/-- `IsHybridButNoURLSpecified` (lines 79-85). -/
def IsHybridButNoURLSpecified (m : Option Meeting) : Bool × Option GoError :=
  match m with
  | none => (false, some GoError.ErrMeetingNotFound)
  | some m_ => (m_.IsOnsite == true && m_.IsOnline == true && m_.Url == "", none)

/-! ## The persistence collaborator

The retrieval functions hand an SQL statement to the ORM.  Two statement shapes
occur in the file: a filtered select on `meetings` alone (`GetMeetingById`), and
a filtered select on `meetings ⋈ participants ⋈ users` (all the others).  The
`WHERE` clauses are embedded shallowly, as three-valued conditions on a row.

Boolean columns are integer-valued (the source compares them with the
parameters `0` and `1`) and may be NULL; key columns are taken non-null (a row
with a NULL key never survives the inner joins). -/

/-- An SQL truth value: `none` is UNKNOWN. -/
abbrev SqlBool := Option Bool

/-- The SQL comparison `column = ?` with an integer parameter; a NULL column
compares as UNKNOWN. -/
def sqlEq (column : Option Int) (param : Int) : SqlBool :=
  match column with
  | none => none
  | some v => some (v == param)

/-- The SQL connective `AND` (three-valued). -/
def sqlAnd : SqlBool → SqlBool → SqlBool
  | some false, _ => some false
  | _, some false => some false
  | some true, some true => some true
  | _, _ => none

/-- A `WHERE` clause keeps a row only when its condition is TRUE. -/
def sqlTrue (b : SqlBool) : Bool :=
  match b with
  | some true => true
  | _ => false

/-- A row of table `meetings`: the columns of struct `Meeting`, under the ORM's
snake-case column names. -/
structure MeetingRow where
  id : Int
  title : String
  description : String
  is_onsite : Option Int
  is_online : Option Int
  place : String
  url : String
  all_participants_responded : Option Int
  is_confirmed : Option Int
  start_time : Time
  end_time : Time
  actual_start_time : Time
  actual_end_time : Time
  hour : Int
  created_at : Time
  updated_at : Time
  deriving DecidableEq

/-- Modelled from the spec: the `Participant` record is declared outside the
source tree; it "links a user to a meeting with `is_host` and `has_responded`
flags".  The column names are those the queries use. -/
structure ParticipantRow where
  meeting_id : Int
  user_id : Int
  is_host : Option Int
  has_responded : Option Int
  deriving DecidableEq

/-- Modelled from the spec: the `User` record is declared outside the source
tree; the queries use its `id` column only. -/
structure UserRow where
  id : Int
  deriving DecidableEq

/-- The content of the three tables. -/
structure Store where
  meetings : List MeetingRow
  participants : List ParticipantRow
  users : List UserRow

/-- A row of `meetings ⋈ participants ⋈ users`. -/
structure JoinedRow where
  m : MeetingRow
  p : ParticipantRow
  u : UserRow
  deriving DecidableEq

/-- The rows of
`meetings inner join participants on participants.meeting_id = meetings.id
          inner join users on users.id = participants.user_id`. -/
def joinedRows (s : Store) : List JoinedRow :=
  s.meetings.flatMap fun m =>
    (s.participants.filter fun p => p.meeting_id == m.id).flatMap fun p =>
      (s.users.filter fun u => u.id == p.user_id).map fun u => { m := m, p := p, u := u }

/-- Whether a `WHERE` condition accepts a joined row. -/
def accepts (cond : JoinedRow → SqlBool) (r : JoinedRow) : Bool :=
  sqlTrue (cond r)

/-- The joined rows of the store that a `WHERE` condition accepts, in store order. -/
def selectJoined (s : Store) (cond : JoinedRow → SqlBool) : List JoinedRow :=
  (joinedRows s).filter (accepts cond)

/-- The ORM handle `*gorm.DB`, as the two statement shapes the file issues.
Each takes the `WHERE` condition and the destination (`Find(&dest)`), and yields
the destination as the ORM left it together with the `.Error` of the call. -/
structure DB where
  /-- `db.Table("meetings").Select("*").Where(cond).Find(&meeting)` -/
  findMeeting : (MeetingRow → SqlBool) → Meeting → Meeting × Option GoError
  /-- `db.Table("meetings").Select("*").Joins(..participants..).Joins(..users..).Where(cond).Find(&meetings)` -/
  findJoined : (JoinedRow → SqlBool) → List Meeting → List Meeting × Option GoError

/-! ## Retrieval (meeting.go, lines 87-201) -/

/-- `Where("meetings.id = ?", Id)` (line 91). -/
def GetMeetingById_cond (Id : Int) (m : MeetingRow) : SqlBool :=
  sqlEq (some m.id) Id

/-- `GetMeetingById` (lines 87-97). -/
def GetMeetingById (db : DB) (Id : Int) : Meeting × Option GoError :=
  let meeting := Meeting.zero
  let (meeting, err) := db.findMeeting (GetMeetingById_cond Id) meeting
  match err with
  | some _ => (meeting, some GoError.ErrRecordNotFound)
  | none => (meeting, none)

/-- `Where("users.id = ?", UserId)` (line 105). -/
def GetMeetingsByUserId_cond (UserId : Int) (r : JoinedRow) : SqlBool :=
  sqlEq (some r.u.id) UserId

/-- `GetMeetingsByUserId` (lines 99-111). -/
def GetMeetingsByUserId (db : DB) (UserId : Int) : List Meeting × Option GoError :=
  let meetings : List Meeting := []
  let (meetings, err) := db.findJoined (GetMeetingsByUserId_cond UserId) meetings
  match err with
  | some _ => (meetings, some GoError.ErrRecordNotFound)
  | none => (meetings, none)

/-- The two `Where` calls of lines 119-120:
`participants.user_id = ? AND participants.is_host = ?` with `UserId, 1`, and
`meetings.is_confirmed = ?` with `1`. -/
def GetConfirmedMeetingsForHostByUserId_cond (UserId : Int) (r : JoinedRow) : SqlBool :=
  sqlAnd
    (sqlAnd (sqlEq (some r.p.user_id) UserId) (sqlEq r.p.is_host 1))
    (sqlEq r.m.is_confirmed 1)

/-- `GetConfirmedMeetingsForHostByUserId` (lines 113-126). -/
def GetConfirmedMeetingsForHostByUserId (db : DB) (UserId : Int) :
    List Meeting × Option GoError :=
  let meetings : List Meeting := []
  let (meetings, err) := db.findJoined (GetConfirmedMeetingsForHostByUserId_cond UserId) meetings
  match err with
  | some _ => (meetings, some GoError.ErrRecordNotFound)
  | none => (meetings, none)

/-- The two `Where` calls of lines 134-135:
`participants.user_id = ? AND participants.is_host = ?` with `UserId, 1`, and
`meetings.is_confirmed = ? AND meetings.all_participants_responded = ?` with `0, 1`. -/
def GetNotConfirmedMeetingsForHostByUserId_cond (UserId : Int) (r : JoinedRow) : SqlBool :=
  sqlAnd
    (sqlAnd (sqlEq (some r.p.user_id) UserId) (sqlEq r.p.is_host 1))
    (sqlAnd (sqlEq r.m.is_confirmed 0) (sqlEq r.m.all_participants_responded 1))

/-- `GetNotConfirmedMeetingsForHostByUserId` (lines 128-141). -/
def GetNotConfirmedMeetingsForHostByUserId (db : DB) (UserId : Int) :
    List Meeting × Option GoError :=
  let meetings : List Meeting := []
  let (meetings, err) :=
    db.findJoined (GetNotConfirmedMeetingsForHostByUserId_cond UserId) meetings
  match err with
  | some _ => (meetings, some GoError.ErrRecordNotFound)
  | none => (meetings, none)

/-- The two `Where` calls of lines 149-150:
`participants.user_id = ? AND participants.is_host = ?` with `UserId, 1`, and
`meetings.is_confirmed = ? AND meetings.all_participants_responded = ?` with `0, 0`. -/
def GetNotRespondedMeetingsForHostByUserId_cond (UserId : Int) (r : JoinedRow) : SqlBool :=
  sqlAnd
    (sqlAnd (sqlEq (some r.p.user_id) UserId) (sqlEq r.p.is_host 1))
    (sqlAnd (sqlEq r.m.is_confirmed 0) (sqlEq r.m.all_participants_responded 0))

/-- `GetNotRespondedMeetingsForHostByUserId` (lines 143-156). -/
def GetNotRespondedMeetingsForHostByUserId (db : DB) (UserId : Int) :
    List Meeting × Option GoError :=
  let meetings : List Meeting := []
  let (meetings, err) :=
    db.findJoined (GetNotRespondedMeetingsForHostByUserId_cond UserId) meetings
  match err with
  | some _ => (meetings, some GoError.ErrRecordNotFound)
  | none => (meetings, none)

/-- The two `Where` calls of lines 164-165:
`participants.user_id = ? AND participants.is_host = ?` with `UserId, 0`, and
`meetings.is_confirmed = ?` with `1`. -/
def GetConfirmedMeetingsForGuestByUserId_cond (UserId : Int) (r : JoinedRow) : SqlBool :=
  sqlAnd
    (sqlAnd (sqlEq (some r.p.user_id) UserId) (sqlEq r.p.is_host 0))
    (sqlEq r.m.is_confirmed 1)

/-- `GetConfirmedMeetingsForGuestByUserId` (lines 158-171). -/
def GetConfirmedMeetingsForGuestByUserId (db : DB) (UserId : Int) :
    List Meeting × Option GoError :=
  let meetings : List Meeting := []
  let (meetings, err) :=
    db.findJoined (GetConfirmedMeetingsForGuestByUserId_cond UserId) meetings
  match err with
  | some _ => (meetings, some GoError.ErrRecordNotFound)
  | none => (meetings, none)

/-- The two `Where` calls of lines 179-180:
`participants.user_id = ? AND participants.is_host = ? AND participants.has_responded = ?`
with `UserId, 0, 1`, and `meetings.is_confirmed = ?` with `0`. -/
def GetNotConfirmedMeetingsForGuestByUserId_cond (UserId : Int) (r : JoinedRow) : SqlBool :=
  sqlAnd
    (sqlAnd (sqlAnd (sqlEq (some r.p.user_id) UserId) (sqlEq r.p.is_host 0))
      (sqlEq r.p.has_responded 1))
    (sqlEq r.m.is_confirmed 0)

/-- `GetNotConfirmedMeetingsForGuestByUserId` (lines 173-186). -/
def GetNotConfirmedMeetingsForGuestByUserId (db : DB) (UserId : Int) :
    List Meeting × Option GoError :=
  let meetings : List Meeting := []
  let (meetings, err) :=
    db.findJoined (GetNotConfirmedMeetingsForGuestByUserId_cond UserId) meetings
  match err with
  | some _ => (meetings, some GoError.ErrRecordNotFound)
  | none => (meetings, none)

/-- The two `Where` calls of lines 194-195:
`participants.user_id = ? AND participants.is_host = ? AND participants.has_responded = ?`
with `UserId, 0, 0`, and `meetings.is_confirmed = ?` with `0`. -/
def GetNotRespondedMeetingsForGuestByUserId_cond (UserId : Int) (r : JoinedRow) : SqlBool :=
  sqlAnd
    (sqlAnd (sqlAnd (sqlEq (some r.p.user_id) UserId) (sqlEq r.p.is_host 0))
      (sqlEq r.p.has_responded 0))
    (sqlEq r.m.is_confirmed 0)

/-- `GetNotRespondedMeetingsForGuestByUserId` (lines 188-201). -/
def GetNotRespondedMeetingsForGuestByUserId (db : DB) (UserId : Int) :
    List Meeting × Option GoError :=
  let meetings : List Meeting := []
  let (meetings, err) :=
    db.findJoined (GetNotRespondedMeetingsForGuestByUserId_cond UserId) meetings
  match err with
  | some _ => (meetings, some GoError.ErrRecordNotFound)
  | none => (meetings, none)

/-! ## The six buckets -/

/-- The six role/status buckets, one per bucket query of the source. -/
inductive Bucket where
  | ConfirmedForHost
  | NotConfirmedForHost
  | NotRespondedForHost
  | ConfirmedForGuest
  | NotConfirmedForGuest
  | NotRespondedForGuest
  deriving DecidableEq

/-- The `WHERE` condition of the bucket's query. -/
def Bucket.cond : Bucket → Int → JoinedRow → SqlBool
  | .ConfirmedForHost => GetConfirmedMeetingsForHostByUserId_cond
  | .NotConfirmedForHost => GetNotConfirmedMeetingsForHostByUserId_cond
  | .NotRespondedForHost => GetNotRespondedMeetingsForHostByUserId_cond
  | .ConfirmedForGuest => GetConfirmedMeetingsForGuestByUserId_cond
  | .NotConfirmedForGuest => GetNotConfirmedMeetingsForGuestByUserId_cond
  | .NotRespondedForGuest => GetNotRespondedMeetingsForGuestByUserId_cond

/-- The retrieval function of the bucket. -/
def Bucket.get : Bucket → DB → Int → List Meeting × Option GoError
  | .ConfirmedForHost => GetConfirmedMeetingsForHostByUserId
  | .NotConfirmedForHost => GetNotConfirmedMeetingsForHostByUserId
  | .NotRespondedForHost => GetNotRespondedMeetingsForHostByUserId
  | .ConfirmedForGuest => GetConfirmedMeetingsForGuestByUserId
  | .NotConfirmedForGuest => GetNotConfirmedMeetingsForGuestByUserId
  | .NotRespondedForGuest => GetNotRespondedMeetingsForGuestByUserId

/-- The ORM's mapping of a result row to the `Meeting` shape ("returning rows
mapped to the Meeting shape", spec section 6).  It is the ORM's code, not this
repository's, and is kept as a parameter. -/
structure RowMapping where
  ofMeetingRow : MeetingRow → Meeting
  ofJoinedRow : JoinedRow → Meeting

/-- Modelled from the spec: the persistence collaborator of spec section 6
("select-by-id, joined select-with-filter, returning rows mapped to the Meeting
shape"), over a given content of the three tables and with no failing call.
The joined select yields the accepted joined rows, in store order, each mapped
to a `Meeting`; the select by id fills the destination from the first accepted
row and leaves it as it is when there is none. -/
def storeDB (s : Store) (scan : RowMapping) : DB :=
  { findMeeting := fun cond dest =>
      match s.meetings.filter (fun m => sqlTrue (cond m)) with
      | [] => (dest, none)
      | row :: _ => (scan.ofMeetingRow row, none),
    findJoined := fun cond _ => ((selectJoined s cond).map scan.ofJoinedRow, none) }

/-- How a Go `bool` sits in a boolean column: `true` as `1`, `false` as `0`,
never NULL. -/
def storedBool (b : Bool) : Option Int :=
  some (if b then 1 else 0)

/-- A column holds a non-null boolean. -/
def IsBoolColumn (c : Option Int) : Prop :=
  c = some 0 ∨ c = some 1

instance (c : Option Int) : Decidable (IsBoolColumn c) := by
  unfold IsBoolColumn; infer_instance

/-- The four flags the queries inspect are non-null booleans. -/
def JoinedRow.BoolFlags (r : JoinedRow) : Prop :=
  IsBoolColumn r.p.is_host ∧ IsBoolColumn r.p.has_responded ∧
  IsBoolColumn r.m.is_confirmed ∧ IsBoolColumn r.m.all_participants_responded

instance (r : JoinedRow) : Decidable r.BoolFlags := by
  unfold JoinedRow.BoolFlags; infer_instance

/-- What the specification says of a retrieval function's result, given the
ORM's response: the rows are those of the response; any error of the response,
whatever it is, becomes `ErrRecordNotFound`; no error stays no error. -/
def CollapsesToNotFound {α : Type} (response result : α × Option GoError) : Prop :=
  result.1 = response.1 ∧
  (∀ cause, response.2 = some cause → result.2 = some GoError.ErrRecordNotFound) ∧
  (response.2 = none → result.2 = none)

/-- What the specification says of a location validator's error: there is one
exactly when the meeting is absent, it is then `ErrMeetingNotFound` with the
boolean `false`, and a present meeting never yields one. -/
def ErrorsOnlyWhenAbsent (f : Option Meeting → Bool × Option GoError) : Prop :=
  ∀ m : Option Meeting,
    ((f m).2 ≠ none ↔ m = none) ∧
    (m = none → f m = (false, some GoError.ErrMeetingNotFound)) ∧
    (∀ x, m = some x → (f m).2 = none)

/-! ## Sample data -/

/-- A meeting row with all-default columns and the given key and status flags. -/
def sampleMeetingRow (id : Int) (is_confirmed all_responded : Option Int) : MeetingRow :=
  { id := id, title := "sync", description := "", is_onsite := some 1, is_online := some 0,
    place := "room 1", url := "", all_participants_responded := all_responded,
    is_confirmed := is_confirmed, start_time := 0, end_time := 0, actual_start_time := 0,
    actual_end_time := 0, hour := 1, created_at := 0, updated_at := 0 }

/-- User 7 hosts the confirmed meeting 1 and is a guest, yet to respond, of the
unconfirmed meeting 2, which user 8 hosts. -/
def sampleStore : Store :=
  { meetings := [sampleMeetingRow 1 (some 1) (some 1), sampleMeetingRow 2 (some 0) (some 0)],
    participants :=
      [ { meeting_id := 1, user_id := 7, is_host := some 1, has_responded := some 1 },
        { meeting_id := 2, user_id := 7, is_host := some 0, has_responded := some 0 },
        { meeting_id := 2, user_id := 8, is_host := some 1, has_responded := some 1 } ],
    users := [{ id := 7 }, { id := 8 }] }

/-- The joined row of user 7 as host of meeting 1. -/
def sampleHostRow : JoinedRow :=
  { m := sampleMeetingRow 1 (some 1) (some 1),
    p := { meeting_id := 1, user_id := 7, is_host := some 1, has_responded := some 1 },
    u := { id := 7 } }

/-- The joined row of user 7 as guest of meeting 2. -/
def sampleGuestRow : JoinedRow :=
  { m := sampleMeetingRow 2 (some 0) (some 0),
    p := { meeting_id := 2, user_id := 7, is_host := some 0, has_responded := some 0 },
    u := { id := 7 } }

/-- A row mapping that copies each `meetings` column to the field of the same
name, reading a flag column as true exactly when it holds `1`. -/
def sampleMapping : RowMapping :=
  { ofMeetingRow := fun m =>
      { Id := m.id, Title := m.title, Description := m.description,
        IsOnsite := m.is_onsite == some 1, IsOnline := m.is_online == some 1,
        Place := m.place, Url := m.url,
        AllParticipantsResponded := m.all_participants_responded == some 1,
        IsConfirmed := m.is_confirmed == some 1,
        StartTime := m.start_time, EndTime := m.end_time,
        ActualStartTime := m.actual_start_time, ActualEndTime := m.actual_end_time,
        Hour := m.hour, CreatedAt := m.created_at, UpdatedAt := m.updated_at },
    ofJoinedRow := fun r =>
      { Id := r.m.id, Title := r.m.title, Description := r.m.description,
        IsOnsite := r.m.is_onsite == some 1, IsOnline := r.m.is_online == some 1,
        Place := r.m.place, Url := r.m.url,
        AllParticipantsResponded := r.m.all_participants_responded == some 1,
        IsConfirmed := r.m.is_confirmed == some 1,
        StartTime := r.m.start_time, EndTime := r.m.end_time,
        ActualStartTime := r.m.actual_start_time, ActualEndTime := r.m.actual_end_time,
        Hour := r.m.hour, CreatedAt := r.m.created_at, UpdatedAt := r.m.updated_at } }

/-- An ORM handle whose every call fails, leaving the destination untouched. -/
def failingDB : DB :=
  { findMeeting := fun _ dest => (dest, some (GoError.other "connection refused")),
    findJoined := fun _ dest => (dest, some (GoError.other "connection refused")) }

/-- An ORM handle whose every call succeeds with one all-default meeting. -/
def oneMeetingDB : DB :=
  { findMeeting := fun _ _ => (Meeting.zero, none),
    findJoined := fun _ _ => ([Meeting.zero], none) }

/-- A hybrid meeting with neither place nor URL. -/
def sampleHybrid : Meeting :=
  { Meeting.zero with IsOnsite := true, IsOnline := true }

/-! ## Validators: properties -/

/-- C1: `IsHourEmpty` fails with `ErrMeetingNotFound` on an absent meeting, fails
with `ErrMeetingHourIsNegative` on a present meeting whose `Hour` is negative,
and otherwise returns no error and the boolean that is true exactly when
`Hour` is zero. -/
theorem IsHourEmpty_contract :
    IsHourEmpty none = (false, some GoError.ErrMeetingNotFound) ∧
    ∀ x : Meeting,
      (x.Hour < 0 → IsHourEmpty (some x) = (false, some GoError.ErrMeetingHourIsNegative)) ∧
      (¬ x.Hour < 0 →
        (IsHourEmpty (some x)).2 = none ∧ ((IsHourEmpty (some x)).1 = true ↔ x.Hour = 0)) := by
  refine ⟨rfl, fun x => ⟨fun h => ?_, fun h => ?_⟩⟩
  · simp [IsHourEmpty, h]
  · simp [IsHourEmpty, h]

/-- C1, at concrete meetings: hour `-2` is rejected, hour `0` is empty, hour `3`
is not. -/
theorem IsHourEmpty_contract_witness :
    IsHourEmpty (some { Meeting.zero with Hour := -2 })
        = (false, some GoError.ErrMeetingHourIsNegative) ∧
    ((IsHourEmpty (some { Meeting.zero with Hour := 0 })).2 = none ∧
      (IsHourEmpty (some { Meeting.zero with Hour := 0 })).1 = true) ∧
    ((IsHourEmpty (some { Meeting.zero with Hour := 3 })).2 = none ∧
      ¬ (IsHourEmpty (some { Meeting.zero with Hour := 3 })).1 = true) :=
  ⟨(IsHourEmpty_contract.2 { Meeting.zero with Hour := -2 }).1 (by decide),
   ⟨((IsHourEmpty_contract.2 { Meeting.zero with Hour := 0 }).2 (by decide)).1,
    ((IsHourEmpty_contract.2 { Meeting.zero with Hour := 0 }).2 (by decide)).2.2 rfl⟩,
   ⟨((IsHourEmpty_contract.2 { Meeting.zero with Hour := 3 }).2 (by decide)).1,
    fun h => absurd
      (((IsHourEmpty_contract.2 { Meeting.zero with Hour := 3 }).2 (by decide)).2.1 h)
      (by decide)⟩⟩

/-- C2: `IsTitleEmpty` fails with `ErrMeetingNotFound` on an absent meeting; on a
present meeting it returns no error and the boolean that is true exactly when
`Title` is the empty string. -/
theorem IsTitleEmpty_contract :
    IsTitleEmpty none = (false, some GoError.ErrMeetingNotFound) ∧
    ∀ x : Meeting,
      (IsTitleEmpty (some x)).2 = none ∧
      ((IsTitleEmpty (some x)).1 = true ↔ x.Title = "") ∧
      ((IsTitleEmpty (some x)).1 = false ↔ x.Title ≠ "") := by
  refine ⟨rfl, fun x => ⟨rfl, ?_, ?_⟩⟩
  · simp [IsTitleEmpty]
  · simp [IsTitleEmpty]

/-- C5: for a present hybrid meeting, the "neither specified" check is true when
`Place` and `Url` are both empty, the "no place" check is true when only `Place`
is empty and the "no URL" check is true when only `Url` is empty; none of them
reports an error. -/
theorem hybrid_checks (x : Meeting) (hOnsite : x.IsOnsite = true) (hOnline : x.IsOnline = true) :
    (x.Place = "" → x.Url = "" →
      IsHybridButNeitherPlaceOrURLSpecified (some x) = (true, none)) ∧
    (x.Place = "" → x.Url ≠ "" → IsHybridButNoPlaceSpecified (some x) = (true, none)) ∧
    (x.Place ≠ "" → x.Url = "" → IsHybridButNoURLSpecified (some x) = (true, none)) := by
  refine ⟨fun hp hu => ?_, fun hp _ => ?_, fun _ hu => ?_⟩
  · simp [IsHybridButNeitherPlaceOrURLSpecified, hOnsite, hOnline, hp, hu]
  · simp [IsHybridButNoPlaceSpecified, hOnsite, hOnline, hp]
  · simp [IsHybridButNoURLSpecified, hOnsite, hOnline, hu]

/-- C5, at a hybrid meeting with neither place nor URL. -/
theorem hybrid_checks_witness :
    IsHybridButNeitherPlaceOrURLSpecified (some sampleHybrid) = (true, none) :=
  (hybrid_checks sampleHybrid rfl rfl).1 rfl rfl

/-- C6: for a present onsite-only meeting `IsOnsiteButNoPlaceSpecified` returns no
error, true when `Place` is empty and false when it is set; for a present
online-only meeting `IsOnlineButNoURLSpecified` returns no error, true when
`Url` is empty and false when it is set. -/
theorem single_mode_checks (x : Meeting) :
    (x.IsOnsite = true → x.IsOnline = false →
      (IsOnsiteButNoPlaceSpecified (some x)).2 = none ∧
      (x.Place = "" → (IsOnsiteButNoPlaceSpecified (some x)).1 = true) ∧
      (x.Place ≠ "" → (IsOnsiteButNoPlaceSpecified (some x)).1 = false)) ∧
    (x.IsOnsite = false → x.IsOnline = true →
      (IsOnlineButNoURLSpecified (some x)).2 = none ∧
      (x.Url = "" → (IsOnlineButNoURLSpecified (some x)).1 = true) ∧
      (x.Url ≠ "" → (IsOnlineButNoURLSpecified (some x)).1 = false)) := by
  refine ⟨fun h1 h2 => ⟨rfl, fun hp => ?_, fun hp => ?_⟩,
          fun h1 h2 => ⟨rfl, fun hu => ?_, fun hu => ?_⟩⟩
  · simp [IsOnsiteButNoPlaceSpecified, h1, h2, hp]
  · simp [IsOnsiteButNoPlaceSpecified, h1, h2, hp]
  · simp [IsOnlineButNoURLSpecified, h1, h2, hu]
  · simp [IsOnlineButNoURLSpecified, h1, h2, hu]

/-- C6, at an onsite-only meeting without a place and at an online-only meeting
with a URL. -/
theorem single_mode_checks_witness :
    (IsOnsiteButNoPlaceSpecified (some { Meeting.zero with IsOnsite := true })).1 = true ∧
    (IsOnlineButNoURLSpecified
      (some { Meeting.zero with IsOnline := true, Url := "https://meet/1" })).1 = false :=
  ⟨((single_mode_checks { Meeting.zero with IsOnsite := true }).1 rfl rfl).2.1 rfl,
   ((single_mode_checks { Meeting.zero with IsOnline := true, Url := "https://meet/1" }).2
      rfl rfl).2.2 (by decide)⟩

/-- C7: each of the five location validators returns an error if and only if the
meeting is absent; the error is then `ErrMeetingNotFound` and the boolean is
false; a present meeting, whatever its fields, yields no error. -/
theorem location_validators_error_iff_absent :
    ErrorsOnlyWhenAbsent IsOnsiteButNoPlaceSpecified ∧
    ErrorsOnlyWhenAbsent IsOnlineButNoURLSpecified ∧
    ErrorsOnlyWhenAbsent IsHybridButNeitherPlaceOrURLSpecified ∧
    ErrorsOnlyWhenAbsent IsHybridButNoPlaceSpecified ∧
    ErrorsOnlyWhenAbsent IsHybridButNoURLSpecified := by
  refine ⟨?_, ?_, ?_, ?_, ?_⟩ <;> intro m <;> cases m <;>
    simp [IsOnsiteButNoPlaceSpecified, IsOnlineButNoURLSpecified,
      IsHybridButNeitherPlaceOrURLSpecified, IsHybridButNoPlaceSpecified,
      IsHybridButNoURLSpecified]

/-- C7, at the absent meeting and at a present one. -/
theorem location_validators_error_iff_absent_witness :
    IsHybridButNoURLSpecified none = (false, some GoError.ErrMeetingNotFound) ∧
    (IsOnsiteButNoPlaceSpecified (some sampleHybrid)).2 = none :=
  ⟨(location_validators_error_iff_absent.2.2.2.2 none).2.1 rfl,
   (location_validators_error_iff_absent.1 (some sampleHybrid)).2.2 sampleHybrid rfl⟩

/-- C10: for a present meeting, all five location validators return false if and
only if (`IsOnsite` implies `Place` non-empty) and (`IsOnline` implies `Url`
non-empty); in particular a meeting that is neither onsite nor online passes
every location check, without error, whatever its `Place` and `Url`. -/
theorem location_checks_all_false_iff (x : Meeting) :
    (((IsOnsiteButNoPlaceSpecified (some x)).1 = false ∧
      (IsOnlineButNoURLSpecified (some x)).1 = false ∧
      (IsHybridButNeitherPlaceOrURLSpecified (some x)).1 = false ∧
      (IsHybridButNoPlaceSpecified (some x)).1 = false ∧
      (IsHybridButNoURLSpecified (some x)).1 = false) ↔
     ((x.IsOnsite = true → x.Place ≠ "") ∧ (x.IsOnline = true → x.Url ≠ ""))) ∧
    (x.IsOnsite = false → x.IsOnline = false →
      IsOnsiteButNoPlaceSpecified (some x) = (false, none) ∧
      IsOnlineButNoURLSpecified (some x) = (false, none) ∧
      IsHybridButNeitherPlaceOrURLSpecified (some x) = (false, none) ∧
      IsHybridButNoPlaceSpecified (some x) = (false, none) ∧
      IsHybridButNoURLSpecified (some x) = (false, none)) := by
  constructor
  · cases h1 : x.IsOnsite <;> cases h2 : x.IsOnline <;>
      simp [IsOnsiteButNoPlaceSpecified, IsOnlineButNoURLSpecified,
        IsHybridButNeitherPlaceOrURLSpecified, IsHybridButNoPlaceSpecified,
        IsHybridButNoURLSpecified, h1, h2]
    intro _ h _
    exact h
  · intro h1 h2
    simp [IsOnsiteButNoPlaceSpecified, IsOnlineButNoURLSpecified,
      IsHybridButNeitherPlaceOrURLSpecified, IsHybridButNoPlaceSpecified,
      IsHybridButNoURLSpecified, h1, h2]

/-- C10, at a meeting that is neither onsite nor online and at a hybrid meeting
that has neither place nor URL. -/
theorem location_checks_all_false_iff_witness :
    IsHybridButNoPlaceSpecified (some Meeting.zero) = (false, none) ∧
    ¬ ((IsOnsiteButNoPlaceSpecified (some sampleHybrid)).1 = false ∧
       (IsOnlineButNoURLSpecified (some sampleHybrid)).1 = false ∧
       (IsHybridButNeitherPlaceOrURLSpecified (some sampleHybrid)).1 = false ∧
       (IsHybridButNoPlaceSpecified (some sampleHybrid)).1 = false ∧
       (IsHybridButNoURLSpecified (some sampleHybrid)).1 = false) :=
  ⟨((location_checks_all_false_iff Meeting.zero).2 rfl rfl).2.2.2.1,
   fun h => ((location_checks_all_false_iff sampleHybrid).1.1 h).1 rfl rfl⟩

/-! ## Retrieval: auxiliary facts -/

theorem sqlTrue_sqlAnd (a b : SqlBool) : sqlTrue (sqlAnd a b) = (sqlTrue a && sqlTrue b) := by
  rcases a with _ | _ | _ <;> rcases b with _ | _ | _ <;> rfl

theorem sqlTrue_sqlEq (c : Option Int) (v : Int) : sqlTrue (sqlEq c v) = true ↔ c = some v := by
  cases c with
  | none => simp [sqlEq, sqlTrue]
  | some w =>
    by_cases h : w = v
    · simp [sqlEq, sqlTrue, h]
    · simp [sqlEq, sqlTrue, h]

theorem mem_joinedRows (s : Store) (r : JoinedRow) :
    r ∈ joinedRows s ↔
      r.m ∈ s.meetings ∧ r.p ∈ s.participants ∧ r.u ∈ s.users ∧
      r.p.meeting_id = r.m.id ∧ r.u.id = r.p.user_id := by
  obtain ⟨m, p, u⟩ := r
  simp only [joinedRows, List.mem_flatMap, List.mem_map, List.mem_filter, beq_iff_eq,
    JoinedRow.mk.injEq]
  constructor
  · rintro ⟨m', hm, p', ⟨hp, hpm⟩, u', ⟨hu, hup⟩, rfl, rfl, rfl⟩
    exact ⟨hm, hp, hu, hpm, hup⟩
  · rintro ⟨hm, hp, hu, hpm, hup⟩
    exact ⟨m, hm, p, ⟨hp, hpm⟩, u, ⟨hu, hup⟩, rfl, rfl, rfl⟩

theorem mem_selectJoined (s : Store) (cond : JoinedRow → SqlBool) (r : JoinedRow) :
    r ∈ selectJoined s cond ↔ r ∈ joinedRows s ∧ accepts cond r = true := by
  simp [selectJoined, List.mem_filter]

theorem accepts_all (uid : Int) (r : JoinedRow) :
    accepts (GetMeetingsByUserId_cond uid) r = true ↔ r.u.id = uid := by
  simp [accepts, GetMeetingsByUserId_cond, sqlTrue_sqlEq]

theorem accepts_confirmedHost (uid : Int) (r : JoinedRow) :
    accepts (GetConfirmedMeetingsForHostByUserId_cond uid) r = true ↔
      r.p.user_id = uid ∧ r.p.is_host = some 1 ∧ r.m.is_confirmed = some 1 := by
  simp [accepts, GetConfirmedMeetingsForHostByUserId_cond, sqlTrue_sqlAnd, sqlTrue_sqlEq,
    and_assoc]

theorem accepts_notConfirmedHost (uid : Int) (r : JoinedRow) :
    accepts (GetNotConfirmedMeetingsForHostByUserId_cond uid) r = true ↔
      r.p.user_id = uid ∧ r.p.is_host = some 1 ∧ r.m.is_confirmed = some 0 ∧
      r.m.all_participants_responded = some 1 := by
  simp [accepts, GetNotConfirmedMeetingsForHostByUserId_cond, sqlTrue_sqlAnd, sqlTrue_sqlEq,
    and_assoc]

theorem accepts_notRespondedHost (uid : Int) (r : JoinedRow) :
    accepts (GetNotRespondedMeetingsForHostByUserId_cond uid) r = true ↔
      r.p.user_id = uid ∧ r.p.is_host = some 1 ∧ r.m.is_confirmed = some 0 ∧
      r.m.all_participants_responded = some 0 := by
  simp [accepts, GetNotRespondedMeetingsForHostByUserId_cond, sqlTrue_sqlAnd, sqlTrue_sqlEq,
    and_assoc]

theorem accepts_confirmedGuest (uid : Int) (r : JoinedRow) :
    accepts (GetConfirmedMeetingsForGuestByUserId_cond uid) r = true ↔
      r.p.user_id = uid ∧ r.p.is_host = some 0 ∧ r.m.is_confirmed = some 1 := by
  simp [accepts, GetConfirmedMeetingsForGuestByUserId_cond, sqlTrue_sqlAnd, sqlTrue_sqlEq,
    and_assoc]

theorem accepts_notConfirmedGuest (uid : Int) (r : JoinedRow) :
    accepts (GetNotConfirmedMeetingsForGuestByUserId_cond uid) r = true ↔
      r.p.user_id = uid ∧ r.p.is_host = some 0 ∧ r.p.has_responded = some 1 ∧
      r.m.is_confirmed = some 0 := by
  simp [accepts, GetNotConfirmedMeetingsForGuestByUserId_cond, sqlTrue_sqlAnd, sqlTrue_sqlEq,
    and_assoc]

theorem accepts_notRespondedGuest (uid : Int) (r : JoinedRow) :
    accepts (GetNotRespondedMeetingsForGuestByUserId_cond uid) r = true ↔
      r.p.user_id = uid ∧ r.p.is_host = some 0 ∧ r.p.has_responded = some 0 ∧
      r.m.is_confirmed = some 0 := by
  simp [accepts, GetNotRespondedMeetingsForGuestByUserId_cond, sqlTrue_sqlAnd, sqlTrue_sqlEq,
    and_assoc]

theorem storedBool_eq_one (b : Bool) : storedBool b = some 1 ↔ b = true := by
  cases b <;> simp [storedBool]

theorem storedBool_eq_zero (b : Bool) : storedBool b = some 0 ↔ b = false := by
  cases b <;> simp [storedBool]

theorem collapse_spec {α : Type} (response : α × Option GoError) :
    CollapsesToNotFound response
      (match response with
       | (rows, err) =>
         match err with
         | some _ => (rows, some GoError.ErrRecordNotFound)
         | none => (rows, none)) := by
  obtain ⟨rows, err⟩ := response
  cases err <;> simp [CollapsesToNotFound]

/-! ## Retrieval: properties -/

/-- C3: for a joined row of the requested user, each bucket query returns the row
exactly when the row matches the query's line of the table of spec section
4.2.  Only the columns a line does not mark with a dash are assumed to hold
non-null booleans; the dashed columns are arbitrary (NULL included), so they
have no influence on the result. -/
theorem bucket_filters_match_table (s : Store) (UserId : Int) (r : JoinedRow)
    (is_host is_confirmed all_participants_responded has_responded : Bool)
    (hrow : r ∈ joinedRows s) (huser : r.p.user_id = UserId) :
    (r.p.is_host = storedBool is_host → r.m.is_confirmed = storedBool is_confirmed →
      (r ∈ selectJoined s (GetConfirmedMeetingsForHostByUserId_cond UserId) ↔
        is_host = true ∧ is_confirmed = true)) ∧
    (r.p.is_host = storedBool is_host → r.m.is_confirmed = storedBool is_confirmed →
      r.m.all_participants_responded = storedBool all_participants_responded →
      (r ∈ selectJoined s (GetNotConfirmedMeetingsForHostByUserId_cond UserId) ↔
        is_host = true ∧ is_confirmed = false ∧ all_participants_responded = true)) ∧
    (r.p.is_host = storedBool is_host → r.m.is_confirmed = storedBool is_confirmed →
      r.m.all_participants_responded = storedBool all_participants_responded →
      (r ∈ selectJoined s (GetNotRespondedMeetingsForHostByUserId_cond UserId) ↔
        is_host = true ∧ is_confirmed = false ∧ all_participants_responded = false)) ∧
    (r.p.is_host = storedBool is_host → r.m.is_confirmed = storedBool is_confirmed →
      (r ∈ selectJoined s (GetConfirmedMeetingsForGuestByUserId_cond UserId) ↔
        is_host = false ∧ is_confirmed = true)) ∧
    (r.p.is_host = storedBool is_host → r.m.is_confirmed = storedBool is_confirmed →
      r.p.has_responded = storedBool has_responded →
      (r ∈ selectJoined s (GetNotConfirmedMeetingsForGuestByUserId_cond UserId) ↔
        is_host = false ∧ is_confirmed = false ∧ has_responded = true)) ∧
    (r.p.is_host = storedBool is_host → r.m.is_confirmed = storedBool is_confirmed →
      r.p.has_responded = storedBool has_responded →
      (r ∈ selectJoined s (GetNotRespondedMeetingsForGuestByUserId_cond UserId) ↔
        is_host = false ∧ is_confirmed = false ∧ has_responded = false)) := by
  refine ⟨fun hh hc => ?_, fun hh hc ha => ?_, fun hh hc ha => ?_, fun hh hc => ?_,
    fun hh hc hd => ?_, fun hh hc hd => ?_⟩
  · rw [mem_selectJoined, accepts_confirmedHost, hh, hc, storedBool_eq_one, storedBool_eq_one]
    exact ⟨fun h => h.2.2, fun h => ⟨hrow, huser, h⟩⟩
  · rw [mem_selectJoined, accepts_notConfirmedHost, hh, hc, ha, storedBool_eq_one,
      storedBool_eq_zero, storedBool_eq_one]
    exact ⟨fun h => h.2.2, fun h => ⟨hrow, huser, h⟩⟩
  · rw [mem_selectJoined, accepts_notRespondedHost, hh, hc, ha, storedBool_eq_one,
      storedBool_eq_zero, storedBool_eq_zero]
    exact ⟨fun h => h.2.2, fun h => ⟨hrow, huser, h⟩⟩
  · rw [mem_selectJoined, accepts_confirmedGuest, hh, hc, storedBool_eq_zero, storedBool_eq_one]
    exact ⟨fun h => h.2.2, fun h => ⟨hrow, huser, h⟩⟩
  · rw [mem_selectJoined, accepts_notConfirmedGuest, hh, hc, hd, storedBool_eq_zero,
      storedBool_eq_one, storedBool_eq_zero]
    exact ⟨fun h => ⟨h.2.2.1, h.2.2.2.2, h.2.2.2.1⟩, fun h => ⟨hrow, huser, h.1, h.2.2, h.2.1⟩⟩
  · rw [mem_selectJoined, accepts_notRespondedGuest, hh, hc, hd, storedBool_eq_zero,
      storedBool_eq_zero, storedBool_eq_zero]
    exact ⟨fun h => ⟨h.2.2.1, h.2.2.2.2, h.2.2.2.1⟩, fun h => ⟨hrow, huser, h.1, h.2.2, h.2.1⟩⟩

/-- C3, in the sample store: user 7's row as host of the confirmed meeting 1 is
returned by the host-confirmed query and not by the host awaiting-responses
query. -/
theorem bucket_filters_match_table_witness :
    sampleHostRow ∈ selectJoined sampleStore (GetConfirmedMeetingsForHostByUserId_cond 7) ∧
    sampleHostRow ∉ selectJoined sampleStore (GetNotRespondedMeetingsForHostByUserId_cond 7) :=
  ⟨((bucket_filters_match_table sampleStore 7 sampleHostRow true true true true
      (by decide) rfl).1 rfl rfl).2 ⟨rfl, rfl⟩,
   fun h => Bool.noConfusion
     (((bucket_filters_match_table sampleStore 7 sampleHostRow true true true true
        (by decide) rfl).2.2.1 rfl rfl rfl).1 h).2.1⟩

/-- C4: no joined row is accepted by the filters of two different buckets, for any
user id and any table content (NULL flags included); and a row whose meeting
has `is_confirmed = 1` is in the result of neither not-responded query. -/
theorem buckets_mutually_exclusive (s : Store) (UserId : Int) (r : JoinedRow) :
    (∀ b₁ b₂ : Bucket, accepts (b₁.cond UserId) r = true → accepts (b₂.cond UserId) r = true →
      b₁ = b₂) ∧
    (r.m.is_confirmed = some 1 →
      r ∉ selectJoined s (GetNotRespondedMeetingsForHostByUserId_cond UserId) ∧
      r ∉ selectJoined s (GetNotRespondedMeetingsForGuestByUserId_cond UserId)) := by
  constructor
  · intro b₁ b₂ h₁ h₂
    cases b₁ <;> cases b₂ <;> first
      | rfl
      | (exfalso
         simp only [Bucket.cond, accepts_confirmedHost, accepts_notConfirmedHost,
           accepts_notRespondedHost, accepts_confirmedGuest, accepts_notConfirmedGuest,
           accepts_notRespondedGuest] at h₁ h₂
         simp_all)
  · intro hc
    constructor
    · rw [mem_selectJoined, accepts_notRespondedHost]
      rintro ⟨_, _, _, h, _⟩
      simp [hc] at h
    · rw [mem_selectJoined, accepts_notRespondedGuest]
      rintro ⟨_, _, _, _, h⟩
      simp [hc] at h

/-- C4, in the sample store: user 7's host row is accepted by the host-confirmed
filter, hence by no other bucket's filter, and is in neither not-responded
result. -/
theorem buckets_mutually_exclusive_witness :
    (∀ b : Bucket, accepts (b.cond 7) sampleHostRow = true → b = Bucket.ConfirmedForHost) ∧
    sampleHostRow ∉ selectJoined sampleStore (GetNotRespondedMeetingsForHostByUserId_cond 7) ∧
    sampleHostRow ∉ selectJoined sampleStore (GetNotRespondedMeetingsForGuestByUserId_cond 7) :=
  ⟨fun b hb =>
     (buckets_mutually_exclusive sampleStore 7 sampleHostRow).1 b Bucket.ConfirmedForHost hb
       (by decide),
   (buckets_mutually_exclusive sampleStore 7 sampleHostRow).2 rfl⟩

/-- C8: each of the eight retrieval functions returns the rows the ORM call
produced; whenever the call reports an error, whatever its cause, the function
returns `ErrRecordNotFound`; whenever it reports none, the function returns no
error. -/
theorem retrieval_errors_collapse (db : DB) (Id UserId : Int) :
    CollapsesToNotFound (db.findMeeting (GetMeetingById_cond Id) Meeting.zero)
      (GetMeetingById db Id) ∧
    CollapsesToNotFound (db.findJoined (GetMeetingsByUserId_cond UserId) [])
      (GetMeetingsByUserId db UserId) ∧
    CollapsesToNotFound (db.findJoined (GetConfirmedMeetingsForHostByUserId_cond UserId) [])
      (GetConfirmedMeetingsForHostByUserId db UserId) ∧
    CollapsesToNotFound (db.findJoined (GetNotConfirmedMeetingsForHostByUserId_cond UserId) [])
      (GetNotConfirmedMeetingsForHostByUserId db UserId) ∧
    CollapsesToNotFound (db.findJoined (GetNotRespondedMeetingsForHostByUserId_cond UserId) [])
      (GetNotRespondedMeetingsForHostByUserId db UserId) ∧
    CollapsesToNotFound (db.findJoined (GetConfirmedMeetingsForGuestByUserId_cond UserId) [])
      (GetConfirmedMeetingsForGuestByUserId db UserId) ∧
    CollapsesToNotFound (db.findJoined (GetNotConfirmedMeetingsForGuestByUserId_cond UserId) [])
      (GetNotConfirmedMeetingsForGuestByUserId db UserId) ∧
    CollapsesToNotFound (db.findJoined (GetNotRespondedMeetingsForGuestByUserId_cond UserId) [])
      (GetNotRespondedMeetingsForGuestByUserId db UserId) :=
  ⟨collapse_spec _, collapse_spec _, collapse_spec _, collapse_spec _, collapse_spec _,
   collapse_spec _, collapse_spec _, collapse_spec _⟩

/-- C8, at a failing ORM handle and at a succeeding one. -/
theorem retrieval_errors_collapse_witness :
    (GetMeetingsByUserId failingDB 7).2 = some GoError.ErrRecordNotFound ∧
    (GetMeetingById failingDB 1).2 = some GoError.ErrRecordNotFound ∧
    (GetNotRespondedMeetingsForGuestByUserId oneMeetingDB 7).1 = [Meeting.zero] ∧
    (GetNotRespondedMeetingsForGuestByUserId oneMeetingDB 7).2 = none :=
  ⟨(retrieval_errors_collapse failingDB 1 7).2.1.2.1 (GoError.other "connection refused") rfl,
   (retrieval_errors_collapse failingDB 1 7).1.2.1 (GoError.other "connection refused") rfl,
   (retrieval_errors_collapse oneMeetingDB 1 7).2.2.2.2.2.2.2.1,
   (retrieval_errors_collapse oneMeetingDB 1 7).2.2.2.2.2.2.2.2.2 rfl⟩

/-- A joined row whose four flags are non-null booleans is selected by the user
filter of `GetMeetingsByUserId` if and only if it is selected by the filter of
some bucket. -/
theorem selected_for_user_iff_some_bucket (s : Store) (UserId : Int) (r : JoinedRow)
    (hflags : r.BoolFlags) :
    r ∈ selectJoined s (GetMeetingsByUserId_cond UserId) ↔
      ∃ b : Bucket, r ∈ selectJoined s (b.cond UserId) := by
  obtain ⟨hh, hd, hc, ha⟩ := hflags
  constructor
  · intro h
    rw [mem_selectJoined, accepts_all] at h
    obtain ⟨hrow, hu⟩ := h
    have hp : r.p.user_id = UserId := by
      rw [← ((mem_joinedRows s r).1 hrow).2.2.2.2]; exact hu
    rcases hh with hh | hh <;> rcases hc with hc | hc
    · rcases hd with hd | hd
      · exact ⟨.NotRespondedForGuest, (mem_selectJoined _ _ _).2
          ⟨hrow, (accepts_notRespondedGuest _ _).2 ⟨hp, hh, hd, hc⟩⟩⟩
      · exact ⟨.NotConfirmedForGuest, (mem_selectJoined _ _ _).2
          ⟨hrow, (accepts_notConfirmedGuest _ _).2 ⟨hp, hh, hd, hc⟩⟩⟩
    · exact ⟨.ConfirmedForGuest, (mem_selectJoined _ _ _).2
        ⟨hrow, (accepts_confirmedGuest _ _).2 ⟨hp, hh, hc⟩⟩⟩
    · rcases ha with ha | ha
      · exact ⟨.NotRespondedForHost, (mem_selectJoined _ _ _).2
          ⟨hrow, (accepts_notRespondedHost _ _).2 ⟨hp, hh, hc, ha⟩⟩⟩
      · exact ⟨.NotConfirmedForHost, (mem_selectJoined _ _ _).2
          ⟨hrow, (accepts_notConfirmedHost _ _).2 ⟨hp, hh, hc, ha⟩⟩⟩
    · exact ⟨.ConfirmedForHost, (mem_selectJoined _ _ _).2
        ⟨hrow, (accepts_confirmedHost _ _).2 ⟨hp, hh, hc⟩⟩⟩
  · rintro ⟨b, hb⟩
    rw [mem_selectJoined] at hb ⊢
    obtain ⟨hrow, hacc⟩ := hb
    refine ⟨hrow, (accepts_all _ _).2 ?_⟩
    rw [((mem_joinedRows s r).1 hrow).2.2.2.2]
    cases b
    · exact ((accepts_confirmedHost _ _).1 hacc).1
    · exact ((accepts_notConfirmedHost _ _).1 hacc).1
    · exact ((accepts_notRespondedHost _ _).1 hacc).1
    · exact ((accepts_confirmedGuest _ _).1 hacc).1
    · exact ((accepts_notConfirmedGuest _ _).1 hacc).1
    · exact ((accepts_notRespondedGuest _ _).1 hacc).1

/-- C9: over any table content and for any user id, `GetMeetingsByUserId` and the
six bucket functions return, without error, the mapped joined rows their
filters select; a joined row with non-null boolean flags is among the rows
selected for `GetMeetingsByUserId` if and only if it is among those selected
for at least one bucket; hence, when the flags of the store are non-null
booleans, the meetings `GetMeetingsByUserId` returns are exactly the meetings
the six bucket functions return, taken together. -/
theorem buckets_cover_user_rows (s : Store) (scan : RowMapping) (UserId : Int) :
    GetMeetingsByUserId (storeDB s scan) UserId =
      ((selectJoined s (GetMeetingsByUserId_cond UserId)).map scan.ofJoinedRow, none) ∧
    (∀ b : Bucket, b.get (storeDB s scan) UserId =
      ((selectJoined s (b.cond UserId)).map scan.ofJoinedRow, none)) ∧
    (∀ r : JoinedRow, r.BoolFlags →
      (r ∈ selectJoined s (GetMeetingsByUserId_cond UserId) ↔
        ∃ b : Bucket, r ∈ selectJoined s (b.cond UserId))) ∧
    ((∀ r ∈ joinedRows s, r.BoolFlags) →
      ∀ x : Meeting, x ∈ (GetMeetingsByUserId (storeDB s scan) UserId).1 ↔
        ∃ b : Bucket, x ∈ (b.get (storeDB s scan) UserId).1) := by
  have hall : GetMeetingsByUserId (storeDB s scan) UserId =
      ((selectJoined s (GetMeetingsByUserId_cond UserId)).map scan.ofJoinedRow, none) := rfl
  have hbucket : ∀ b : Bucket, b.get (storeDB s scan) UserId =
      ((selectJoined s (b.cond UserId)).map scan.ofJoinedRow, none) :=
    fun b => by cases b <;> rfl
  refine ⟨hall, hbucket,
    fun r hr => selected_for_user_iff_some_bucket s UserId r hr, fun hflags x => ?_⟩
  rw [hall]
  simp only [hbucket, List.mem_map]
  constructor
  · rintro ⟨r, hr, rfl⟩
    have hrow : r ∈ joinedRows s := ((mem_selectJoined _ _ _).1 hr).1
    obtain ⟨b, hb⟩ := (selected_for_user_iff_some_bucket s UserId r (hflags r hrow)).1 hr
    exact ⟨b, r, hb, rfl⟩
  · rintro ⟨b, r, hb, rfl⟩
    have hrow : r ∈ joinedRows s := ((mem_selectJoined _ _ _).1 hb).1
    exact ⟨r, (selected_for_user_iff_some_bucket s UserId r (hflags r hrow)).2 ⟨b, hb⟩, rfl⟩

/-- C9, in the sample store: every joined row has non-null boolean flags;
`GetMeetingsByUserId` returns user 7's two meetings; user 7's row as guest of
meeting 2 is selected for some bucket; and the meetings returned for user 7 are
those the bucket functions return. -/
theorem buckets_cover_user_rows_witness :
    (∀ r ∈ joinedRows sampleStore, r.BoolFlags) ∧
    GetMeetingsByUserId (storeDB sampleStore sampleMapping) 7 =
      ([sampleMapping.ofJoinedRow sampleHostRow, sampleMapping.ofJoinedRow sampleGuestRow],
        none) ∧
    (∃ b : Bucket, sampleGuestRow ∈ selectJoined sampleStore (b.cond 7)) ∧
    (∀ x : Meeting, x ∈ (GetMeetingsByUserId (storeDB sampleStore sampleMapping) 7).1 ↔
      ∃ b : Bucket, x ∈ (b.get (storeDB sampleStore sampleMapping) 7).1) :=
  ⟨by decide, by decide,
   ((buckets_cover_user_rows sampleStore sampleMapping 7).2.2.1 sampleGuestRow (by decide)).1
     (by decide),
   (buckets_cover_user_rows sampleStore sampleMapping 7).2.2.2 (by decide)⟩

end LetsSchedule
